import Mathlib

/-!
Verification of the ConnectLife device-communication core
(standalone_connectlife: oauth.py, api.py, device_parsers/).

The Python source is shallowly embedded: Python dicts become association
lists over String keys (insertion-ordered, as in Python), numbers become
rationals, fallible code returns Except/Option, and the in-place mutation
performed by the parser-narrowing routine is made explicit by returning the
post-run base table alongside the new filtered table.
-/

/- Rational arithmetic must evaluate inside decide/rfl witnesses; the
library marks these operations irreducible for performance only. -/
set_option allowUnsafeReducibility true

attribute [semireducible] Rat.add Rat.sub Rat.mul Rat.inv

namespace ConnectLife

/-! ### Python dict model (association lists, insertion-ordered) -/

/-- dict lookup: d.get(k) / d[k]. Returns the first binding of the key. -/
def dget {κ α : Type} [DecidableEq κ] : List (κ × α) → κ → Option α
  | [], _ => none
  | (k, v) :: rest, key => if k = key then some v else dget rest key

/-- dict assignment d[k] = v: replaces the binding in place if the key is
present (keeping its position, as Python does), else appends it. -/
def dset {κ α : Type} [DecidableEq κ] : List (κ × α) → κ → α → List (κ × α)
  | [], key, v => [(key, v)]
  | (k, w) :: rest, key, v =>
    if k = key then (k, v) :: rest else (k, w) :: dset rest key v

/-- dict.pop(k, None): removes the key. -/
def derase {κ α : Type} [DecidableEq κ] : List (κ × α) → κ → List (κ × α)
  | [], _ => []
  | (k, v) :: rest, key =>
    if k = key then derase rest key else (k, v) :: derase rest key

/-- d.update(e): assigns every binding of e into d, in order. -/
def dupdate {κ α : Type} [DecidableEq κ] (d e : List (κ × α)) : List (κ × α) :=
  e.foldl (fun acc p => dset acc p.1 p.2) d

/-- The key list of a dict. -/
def dkeys {κ α : Type} (d : List (κ × α)) : List κ := d.map Prod.fst

theorem dget_isSome_iff_mem {κ α : Type} [DecidableEq κ] (d : List (κ × α)) (k : κ) :
    (dget d k).isSome = true ↔ k ∈ dkeys d := by
  induction d with
  | nil => simp [dget, dkeys]
  | cons p rest ih =>
    obtain ⟨k0, v0⟩ := p
    by_cases h : k0 = k <;> simp [dget, dkeys, h, ih]
    exact fun hk => absurd hk.symm h

theorem dget_eq_none_iff_not_mem {κ α : Type} [DecidableEq κ] (d : List (κ × α)) (k : κ) :
    dget d k = none ↔ k ∉ dkeys d := by
  rw [← dget_isSome_iff_mem]
  cases dget d k <;> simp

theorem dget_dset_self {κ α : Type} [DecidableEq κ] (d : List (κ × α)) (k : κ) (v : α) :
    dget (dset d k v) k = some v := by
  induction d with
  | nil => simp [dset, dget]
  | cons p rest ih =>
    obtain ⟨k0, v0⟩ := p
    by_cases h : k0 = k <;> simp [dset, dget, h, ih]

theorem dget_dset_ne {κ α : Type} [DecidableEq κ] (d : List (κ × α)) (k j : κ) (v : α)
    (h : j ≠ k) : dget (dset d k v) j = dget d j := by
  induction d with
  | nil =>
    simp only [dset, dget]
    rw [if_neg (fun hh : k = j => h hh.symm)]
  | cons p rest ih =>
    obtain ⟨k0, v0⟩ := p
    by_cases h0 : k0 = k
    · subst h0
      have hne : ¬ k0 = j := fun hh => h hh.symm
      simp [dset, dget, hne]
    · simp only [dset, if_neg h0, dget]
      by_cases h1 : k0 = j
      · rw [if_pos h1, if_pos h1]
      · rw [if_neg h1, if_neg h1, ih]

theorem mem_dkeys_dset {κ α : Type} [DecidableEq κ] (d : List (κ × α)) (k j : κ) (v : α) :
    j ∈ dkeys (dset d k v) ↔ j ∈ dkeys d ∨ j = k := by
  induction d with
  | nil => simp [dset, dkeys]
  | cons p rest ih =>
    obtain ⟨k0, v0⟩ := p
    by_cases h : k0 = k
    · subst h
      simp [dset, dkeys]
      tauto
    · simp only [dset, if_neg h, dkeys, List.map_cons, List.mem_cons] at ih ⊢
      rw [ih]
      tauto

theorem dkeys_dset_of_mem {κ α : Type} [DecidableEq κ] (d : List (κ × α)) (k : κ) (v : α)
    (h : k ∈ dkeys d) : dkeys (dset d k v) = dkeys d := by
  induction d with
  | nil => simp [dkeys] at h
  | cons p rest ih =>
    obtain ⟨k0, v0⟩ := p
    by_cases h0 : k0 = k
    · simp [dset, h0, dkeys]
    · simp only [dkeys, List.map_cons, List.mem_cons] at h
      rcases h with h | h
      · exact absurd h.symm h0
      · have h2 := ih h
        simp only [dset, if_neg h0, dkeys, List.map_cons] at h2 ⊢
        rw [h2]

theorem dget_derase_self {κ α : Type} [DecidableEq κ] (d : List (κ × α)) (k : κ) :
    dget (derase d k) k = none := by
  induction d with
  | nil => simp [derase, dget]
  | cons p rest ih =>
    obtain ⟨k0, v0⟩ := p
    by_cases h : k0 = k
    · simpa [derase, h] using ih
    · simp [derase, dget, h, ih]

theorem dupdate_cons {κ α : Type} [DecidableEq κ] (d rest : List (κ × α)) (k : κ) (v : α) :
    dupdate d ((k, v) :: rest) = dupdate (dset d k v) rest := rfl

theorem dget_dupdate_not_mem {κ α : Type} [DecidableEq κ] (d e : List (κ × α)) (k : κ)
    (h : k ∉ dkeys e) : dget (dupdate d e) k = dget d k := by
  induction e generalizing d with
  | nil => simp [dupdate]
  | cons p rest ih =>
    obtain ⟨k0, v0⟩ := p
    simp only [dkeys, List.map_cons, List.mem_cons, not_or] at h
    rw [dupdate_cons, ih (dset d k0 v0) h.2, dget_dset_ne d k0 k v0 h.1]

theorem dget_dupdate_of_mem {κ α : Type} [DecidableEq κ] (d e : List (κ × α)) (k : κ) (v : α)
    (hnd : (dkeys e).Nodup) (h : dget e k = some v) :
    dget (dupdate d e) k = some v := by
  induction e generalizing d with
  | nil => simp [dget] at h
  | cons p rest ih =>
    obtain ⟨k0, v0⟩ := p
    simp only [dkeys, List.map_cons, List.nodup_cons] at hnd
    rw [dupdate_cons]
    by_cases hk : k0 = k
    · subst hk
      simp [dget] at h
      rw [dget_dupdate_not_mem _ _ _ hnd.1, dget_dset_self, h]
    · simp only [dget, if_neg hk] at h
      exact ih (dset d k0 v0) hnd.2 h

/-! ### Python value model

Raw device status values and user-supplied write values are JSON scalars:
strings, ints, or floats. Floats are modelled as rationals. -/

inductive PyVal : Type
  | str (s : String)
  | int (n : Int)
  | float (q : ℚ)
deriving DecidableEq

/-- s.split(c) on character lists. "".split(c) = [""]. -/
def splitOnChar (c : Char) : List Char → List (List Char)
  | [] => [[]]
  | x :: xs =>
    let r := splitOnChar c xs
    if x = c then [] :: r
    else
      match r with
      | [] => [[x]]
      | y :: ys => (x :: y) :: ys

/-- Decimal digit accumulation; natOfDigits of [] is 0. -/
def natOfDigits (cs : List Char) : ℕ :=
  cs.foldl (fun a c => 10 * a + (c.toNat - 48)) 0

/-- Unsigned part of Python float(s) on plain decimal literals:
digits with at most one dot, at least one digit overall
(so "16", "3.5", ".5" and "5." all parse). Exponents, inf/nan,
underscores and surrounding whitespace, which this code base never
feeds to float(), are not modelled and yield none. -/
def parseFloatCore (cs : List Char) : Option ℚ :=
  match splitOnChar '.' cs with
  | [ip] =>
    if ip ≠ [] ∧ ip.all Char.isDigit then some ((natOfDigits ip : ℚ)) else none
  | [ip, fp] =>
    if (ip ≠ [] ∨ fp ≠ []) ∧ ip.all Char.isDigit ∧ fp.all Char.isDigit then
      some ((natOfDigits ip : ℚ) + (natOfDigits fp : ℚ) / ((10 : ℚ) ^ fp.length))
    else none
  | _ => none

/-- Python float(s) on a decimal-literal string, with an optional sign. -/
def parseFloatStr (s : String) : Option ℚ :=
  match s.data with
  | '-' :: rest => (parseFloatCore rest).map Neg.neg
  | '+' :: rest => parseFloatCore rest
  | cs => parseFloatCore cs

/-- Python float(value): succeeds on ints, floats, and numeric strings;
fails (ValueError/TypeError) otherwise. -/
def pyFloat : PyVal → Option ℚ
  | .str s => parseFloatStr s
  | .int n => some (n : ℚ)
  | .float q => some q

/-- Python str(value). For ints the decimal representation; strings are
returned as-is. Python float formatting is not load-bearing anywhere in
this development (no schema both declares an enum map and receives float
writes), so for floats the rational representation stands in. -/
def pyStr : PyVal → String
  | .str s => s
  | .int n => toString n
  | .float q => toString q

/-! ### Exceptions (exceptions.py)

The module defines exactly four concrete subclasses of ConnectLifeError:
AuthenticationError, TokenError, ApiError, DeviceError. The spec names
TransportError / InvalidResponse / TokenExpired do not correspond to
classes in the code; the embedded error type mirrors the code. -/

inductive CLError : Type
  | authenticationError (msg : String)
  | tokenError (msg : String)
  | apiError (msg : String)
  | deviceError (msg : String)
deriving DecidableEq

/-- The exception class of an error, forgetting the message. -/
inductive CLErrorClass : Type
  | authenticationError | tokenError | apiError | deviceError
deriving DecidableEq

def CLError.cls : CLError → CLErrorClass
  | .authenticationError _ => .authenticationError
  | .tokenError _ => .tokenError
  | .apiError _ => .apiError
  | .deviceError _ => .deviceError

/-- Python str(e) of a ConnectLifeError is its message. -/
def CLError.msg : CLError → String
  | .authenticationError m => m
  | .tokenError m => m
  | .apiError m => m
  | .deviceError m => m

/-- The class of the error of a failed computation, if it failed. -/
def errClassOf {α : Type} : Except CLError α → Option CLErrorClass
  | .error e => some e.cls
  | .ok _ => none

/-! ### OAuth2 token lifecycle (oauth.py, class OAuth2Session)

The token dict maps string keys to strings or numbers; time.time() is a
rational parameter. Python truthiness: missing key, empty string and 0
are all falsy. -/

inductive TokVal : Type
  | vs (s : String)
  | vq (q : ℚ)
deriving DecidableEq

abbrev Tok : Type := List (String × TokVal)

/-- Truthiness of an optional dict value (None, "" and 0 are falsy). -/
def truthyTV : Option TokVal → Bool
  | none => false
  | some (.vs s) => s ≠ ""
  | some (.vq q) => q ≠ 0

/-- Numeric reading of a token value. Expiry fields are always numbers in
the modelled flows; on a string Python would raise TypeError in the
arithmetic, which no claim exercises. -/
def tvNum : TokVal → ℚ
  | .vq q => q
  | .vs _ => 0

/-- Python str() for token-response message fields. -/
def tvStr : TokVal → String
  | .vs s => s
  | .vq q => toString q

/-- OAuth2Session._is_token_expired, oauth.py lines 103-112.
Returns the boolean and the token dict as it stands afterwards (the
method writes expires_at into the dict in the expires_in fallback). -/
def is_token_expired (now : ℚ) (tok : Tok) : Bool × Tok :=
  let ea := dget tok "expires_at"
  if truthyTV ea = false then
    let ei := dget tok "expires_in"
    if truthyTV ei then
      (false, dset tok "expires_at" (.vq (now + tvNum (ei.getD (.vq 0)))))
    else (true, tok)
  else (decide (tvNum (ea.getD (.vq 0)) - 300 ≤ now), tok)

/-- response.get("resultCode", 0) != 0 (a string value is != 0 in Python). -/
def resultCodeNonzero : Option TokVal → Bool
  | none => false
  | some (.vq q) => q ≠ 0
  | some (.vs _) => true

/-- The response-validation and expiry stamping of
OAuth2Session._token_request, oauth.py lines 143-176, as a pure function
of the receipt time, the HTTP status and the parsed JSON response. -/
def token_request_post (now : ℚ) (status : ℕ) (response : Tok) : Except CLError Tok :=
  if (dget response "error").isSome then
    .error (.authenticationError
      ("Authentication failed: "
        ++ tvStr ((dget response "error").getD (.vs "Unknown error")) ++ " - "
        ++ tvStr ((dget response "error_description").getD (.vs "No details provided"))))
  else if resultCodeNonzero (dget response "resultCode") then
    .error (.authenticationError
      ("Authentication failed: "
        ++ tvStr ((dget response "error").getD (.vs "Unknown error")) ++ " - "
        ++ tvStr ((dget response "error_description").getD (.vs "No details provided"))))
  else if status ≠ 200 then
    .error (.authenticationError ("Token request failed: " ++ toString status))
  else if (dget response "access_token").isNone then
    .error (.authenticationError "Invalid response: access_token not found")
  else if (dget response "expires_in").isSome ∧ (dget response "expires_at").isNone then
    .ok (dset response "expires_at"
      (.vq (now + tvNum ((dget response "expires_in").getD (.vq 0)))))
  else .ok response

/-- The OAuth2Session state: the in-memory token dict and the content of
the token file managed by TokenStorage (save replaces it). -/
structure OAuthState : Type where
  token : Tok
  storage : Option Tok
deriving DecidableEq

/-- OAuth2Session.async_ensure_token_valid, oauth.py lines 86-101,
together with _refresh_token (119-132). The outcome of the one possible
token-endpoint POST is supplied as refreshResult. Returns the raised
error or unit, the state afterwards, and how many token-endpoint
requests were performed. -/
def async_ensure_token_valid (st : OAuthState) (now : ℚ)
    (refreshResult : Except CLError Tok) :
    Except CLError Unit × OAuthState × ℕ :=
  if st.token.isEmpty then
    (.error (.tokenError "No token available. Please authenticate first."), st, 0)
  else
    let r := is_token_expired now st.token
    let st1 : OAuthState := { st with token := r.2 }
    if r.1 then
      if truthyTV (dget r.2 "refresh_token") = false then
        (.error (.tokenError ("Failed to refresh token: "
          ++ "No refresh token available")), st1, 0)
      else
        match refreshResult with
        | .ok token_data =>
          let tok2 := dupdate r.2 token_data
          (.ok (), { token := tok2, storage := some tok2 }, 1)
        | .error e =>
          (.error (.tokenError ("Failed to refresh token: " ++ e.msg)), st1, 1)
    else (.ok (), st1, 0)

theorem is_token_expired_true_frame (now : ℚ) (tok : Tok)
    (h : (is_token_expired now tok).1 = true) :
    (is_token_expired now tok).2 = tok := by
  simp only [is_token_expired] at h ⊢
  split_ifs at h ⊢ with h1 h2
  · rfl
  · rfl

theorem token_request_post_non200_error (now : ℚ) (status : ℕ) (response : Tok)
    (hs : status ≠ 200) :
    ∃ e : CLError, token_request_post now status response = .error e := by
  unfold token_request_post
  split_ifs with h1 h2
  all_goals exact ⟨_, rfl⟩

/-- C1: For a token record whose expiry was derived from expires_in = E at
acquisition time T, the absolute expiry expires_at = T + E is computed once
when the grant response is received (in _token_request), and
async_ensure_token_valid performs the refresh-token grant exactly when
now >= T + E - 300, never before; when it does not refresh, the token
record is left as it was. -/
theorem c1_refresh_margin :
    (∀ (response tok : Tok) (T E : ℚ),
        token_request_post T 200 response = .ok tok →
        dget response "expires_in" = some (.vq E) →
        dget response "expires_at" = none →
        dget tok "expires_at" = some (.vq (T + E)))
    ∧
    (∀ (tok : Tok) (storage : Option Tok) (T E now : ℚ)
        (rr : Except CLError Tok),
        dget tok "expires_at" = some (.vq (T + E)) →
        T + E ≠ 0 →
        tok ≠ [] →
        truthyTV (dget tok "refresh_token") = true →
        ((async_ensure_token_valid ⟨tok, storage⟩ now rr).2.2 =
            if T + E - 300 ≤ now then 1 else 0)
          ∧ (¬ T + E - 300 ≤ now →
              (async_ensure_token_valid ⟨tok, storage⟩ now rr).2.1 =
                ⟨tok, storage⟩)) := by
  constructor
  · intro response tok T E hok hei hea
    unfold token_request_post at hok
    split_ifs at hok with h1 h2 h3 h4 h5
    · have hd := Except.ok.inj hok
      rw [← hd, dget_dset_self, hei]
      simp [tvNum]
    · exact absurd ⟨by simp [hei], by simp [hea]⟩ h5
  · intro tok storage T E now rr hea hne0 hnil htr
    have hempty : tok.isEmpty = false := by
      cases h : tok with
      | nil => exact absurd h hnil
      | cons a l => rfl
    have hexp : is_token_expired now tok = (decide (T + E - 300 ≤ now), tok) := by
      simp only [is_token_expired, hea]
      have ht : truthyTV (some (.vq (T + E))) = true := by
        simp [truthyTV, hne0]
      rw [ht]
      simp [tvNum]
    by_cases hle : T + E - 300 ≤ now
    · refine ⟨?_, fun hcon => absurd hle hcon⟩
      cases rr with
      | ok td => simp [async_ensure_token_valid, hempty, hexp, htr, hle]
      | error e => simp [async_ensure_token_valid, hempty, hexp, htr, hle]
    · refine ⟨?_, fun _ => ?_⟩ <;>
        simp [async_ensure_token_valid, hempty, hexp, hle]

/-- C1 witness: a token acquired at T = 1000 with expires_in = 3600 carries
expires_at = 4600; at now = 4300 = T + E - 300 the refresh fires (one
token-endpoint request), at now = 4299 it does not and the state is
untouched. -/
theorem c1_refresh_margin_witness :
    (token_request_post 1000 200
        [("access_token", .vs "a"), ("refresh_token", .vs "r"),
         ("expires_in", .vq 3600)] =
      .ok [("access_token", .vs "a"), ("refresh_token", .vs "r"),
           ("expires_in", .vq 3600), ("expires_at", .vq 4600)])
    ∧ dget [("access_token", TokVal.vs "a"), ("refresh_token", TokVal.vs "r"),
        ("expires_in", TokVal.vq 3600), ("expires_at", TokVal.vq 4600)]
        "expires_at" = some (.vq (1000 + 3600))
    ∧ (async_ensure_token_valid
        ⟨[("access_token", .vs "a"), ("refresh_token", .vs "r"),
          ("expires_in", .vq 3600), ("expires_at", .vq 4600)], none⟩ 4300
        (.error (.authenticationError "boom"))).2.2 = 1
    ∧ (async_ensure_token_valid
        ⟨[("access_token", .vs "a"), ("refresh_token", .vs "r"),
          ("expires_in", .vq 3600), ("expires_at", .vq 4600)], none⟩ 4299
        (.error (.authenticationError "boom"))).2.2 = 0 := by
  refine ⟨rfl,
    c1_refresh_margin.1
      [("access_token", .vs "a"), ("refresh_token", .vs "r"),
       ("expires_in", .vq 3600)]
      [("access_token", .vs "a"), ("refresh_token", .vs "r"),
       ("expires_in", .vq 3600), ("expires_at", .vq 4600)]
      1000 3600 rfl rfl rfl, ?_, ?_⟩
  · have h := (c1_refresh_margin.2
      [("access_token", .vs "a"), ("refresh_token", .vs "r"),
       ("expires_in", .vq 3600), ("expires_at", .vq 4600)] none 1000 3600 4300
      (.error (.authenticationError "boom"))
      (by decide) (by norm_num) (by decide) (by decide)).1
    rw [h]
    norm_num
  · have h := (c1_refresh_margin.2
      [("access_token", .vs "a"), ("refresh_token", .vs "r"),
       ("expires_in", .vq 3600), ("expires_at", .vq 4600)] none 1000 3600 4299
      (.error (.authenticationError "boom"))
      (by decide) (by norm_num) (by decide) (by decide)).1
    rw [h]
    norm_num

/-- C5: When the refresh-token grant fails (here: the token endpoint
answers HTTP 401, on which _token_request always raises), ensureValid
raises the token-expiry error (TokenError in the code, the class the spec
calls TokenExpired), the state - in-memory token and durable storage - is
returned exactly as it was, and exactly one token-endpoint request was
made (no automatic retry). -/
theorem c5_refresh_failure_preserves_state :
    ∀ (st : OAuthState) (now : ℚ) (response : Tok),
      st.token ≠ [] →
      (is_token_expired now st.token).1 = true →
      truthyTV (dget st.token "refresh_token") = true →
      ∃ m : String,
        async_ensure_token_valid st now (token_request_post now 401 response) =
          (.error (.tokenError m), st, 1) := by
  intro st now response hnil hexp htr
  obtain ⟨e, he⟩ := token_request_post_non200_error now 401 response (by omega)
  have hframe := is_token_expired_true_frame now st.token hexp
  have hempty : st.token.isEmpty = false := by
    cases h : st.token with
    | nil => exact absurd h hnil
    | cons a l => rfl
  refine ⟨"Failed to refresh token: " ++ e.msg, ?_⟩
  simp only [async_ensure_token_valid, hempty, Bool.false_eq_true, if_false,
    hexp, hframe, htr, he, if_true]
  simp [hexp, hframe, htr]

/-- C5 witness: concrete expired token, 401-style error response. -/
theorem c5_refresh_failure_preserves_state_witness :
    ([("access_token", TokVal.vs "a"), ("refresh_token", TokVal.vs "r"),
        ("expires_at", TokVal.vq 100)] : Tok) ≠ []
    ∧ (is_token_expired 1000 [("access_token", .vs "a"),
        ("refresh_token", .vs "r"), ("expires_at", .vq 100)]).1 = true
    ∧ (∃ m : String,
        async_ensure_token_valid
          ⟨[("access_token", .vs "a"), ("refresh_token", .vs "r"),
            ("expires_at", .vq 100)], some [("access_token", .vs "a")]⟩ 1000
          (token_request_post 1000 401 [("error", .vs "invalid_grant")]) =
        (.error (.tokenError m),
          ⟨[("access_token", .vs "a"), ("refresh_token", .vs "r"),
            ("expires_at", .vq 100)], some [("access_token", .vs "a")]⟩, 1)) :=
  ⟨by decide, by decide,
    c5_refresh_failure_preserves_state
      ⟨[("access_token", .vs "a"), ("refresh_token", .vs "r"),
        ("expires_at", .vq 100)], some [("access_token", .vs "a")]⟩ 1000
      [("error", .vs "invalid_grant")] (by decide) (by decide) (by decide)⟩

/-! ### Signed request transport (api.py, class ConnectLifeApiClient)

JSON values for request parameters, bodies and response envelopes. -/

inductive JVal : Type
  | jstr (s : String)
  | jnum (q : ℚ)
  | jbool (b : Bool)
  | jnull
  | jobj (fields : List (String × JVal))
  | jarr (xs : List JVal)

/-- Approximation of Python repr/str used only to build diagnostic
message text (never inspected beyond string concatenation). -/
def jpyrepr : JVal → String
  | .jstr s => "'" ++ s ++ "'"
  | .jnum q => toString q
  | .jbool true => "True"
  | .jbool false => "False"
  | .jnull => "None"
  | .jobj _ => "{...}"
  | .jarr _ => "[...]"

/-- Python str() of a JSON value (strings unquoted). -/
def jstrOf : JVal → String
  | .jstr s => s
  | v => jpyrepr v

/-- config-supplied application id (const.py CLIENT_ID); its concrete
value is environment configuration, not logic. -/
def CLIENT_ID : String := "client-id"

/-- ConnectLifeApiClient._get_system_parameters, api.py lines 217-242.
The timestamp, random nonce and memoized source id are parameters (they
come from time/uuid); the access token is the outcome of the
async_get_access_token call, none when it raised (the bare except: pass).
The token is appended for every request, GET and POST alike. -/
def get_system_parameters (timeStamp randStr sourceId : String)
    (accessToken : Option String) : List (String × JVal) :=
  let params : List (String × JVal) :=
    [("timeStamp", .jstr timeStamp), ("version", .jstr "8.1"),
     ("languageId", .jstr "1"), ("timezone", .jstr "UTC"),
     ("randStr", .jstr randStr), ("appId", .jstr CLIENT_ID),
     ("sourceId", .jstr sourceId), ("platformId", .jnum 5)]
  match accessToken with
  | some t => if t ≠ "" then dset params "accessToken" (.jstr t) else params
  | none => params

/-- The outgoing shape of one API request: query parameters (GET only,
serialized into the URL), JSON body (None for GET or an empty dict), and
the accessToken header (GET only). -/
structure BuiltRequest : Type where
  queryParams : Option (List (String × JVal))
  body : Option (List (String × JVal))
  accessTokenHeader : Option String

/-- Python str.upper(), character-wise (the method strings are ASCII). -/
def pyUpper (s : String) : String := String.mk (s.data.map Char.toUpper)

/-- The request-construction part of ConnectLifeApiClient._api_request,
api.py lines 114-142 (parameter merge, GET/POST split) and 121-125
(accessToken header for GET). data is the caller-supplied body dict. -/
def api_request_build (method : String) (data : Option (List (String × JVal)))
    (sysParams : List (String × JVal)) (accessToken : String) : BuiltRequest :=
  let base : List (String × JVal) :=
    match data with
    | some d => if d.isEmpty then [] else d
    | none => []
  let request_data := dupdate base sysParams
  if pyUpper method = "GET" then
    { queryParams := some (derase request_data "accessToken")
      body := none
      accessTokenHeader := some accessToken }
  else
    { queryParams := none
      body := if request_data.isEmpty then none else some request_data
      accessTokenHeader := none }

theorem isEmpty_false_of_dget_some {κ α : Type} [DecidableEq κ]
    (d : List (κ × α)) (k : κ) (v : α) (h : dget d k = some v) :
    d.isEmpty = false := by
  cases d with
  | nil => simp [dget] at h
  | cons a l => rfl

theorem get_system_parameters_token (ts rs sid tok : String) (h : tok ≠ "") :
    dget (get_system_parameters ts rs sid (some tok)) "accessToken" =
      some (.jstr tok) := by
  simp only [get_system_parameters, h, ne_eq, not_false_eq_true, if_true]
  exact dget_dset_self _ _ _

theorem get_system_parameters_keys_nodup (ts rs sid tok : String) (h : tok ≠ "") :
    (dkeys (get_system_parameters ts rs sid (some tok))).Nodup := by
  simp only [get_system_parameters, h, ne_eq, not_false_eq_true, if_true]
  simp [dset, dkeys]

/-- C2 counterexample: with an access token available, a POST request
embeds the token in the JSON body (the merged parameter dict, which
becomes the body, contains the accessToken entry), contrary to the claim
that the token is kept out of POST bodies. -/
theorem c2_post_body_contains_token_counterexample :
    dget ((api_request_build "POST" (some [("puid", JVal.jstr "X")])
        (get_system_parameters "1700000000000" "r4nd" "srcid" (some "tok"))
        "tok").body.getD []) "accessToken" = some (.jstr "tok") := by
  rfl

/-- C2 amended: _get_system_parameters appends the access token to the
canonical parameter set for every method, not only GET; for GET requests
the token is then popped from the query parameters (it travels in the
accessToken header) and the body is empty; for POST requests the merged
parameters, access token included, form the JSON body and no accessToken
header is set. -/
theorem c2_amended_token_placement :
    ∀ (ts rs sid tok : String) (data : Option (List (String × JVal))),
      tok ≠ "" →
      (dget (get_system_parameters ts rs sid (some tok)) "accessToken" =
          some (.jstr tok))
      ∧ ((api_request_build "GET" data
            (get_system_parameters ts rs sid (some tok)) tok).body = none
        ∧ (api_request_build "GET" data
            (get_system_parameters ts rs sid (some tok)) tok).accessTokenHeader =
            some tok
        ∧ dget ((api_request_build "GET" data
            (get_system_parameters ts rs sid (some tok)) tok).queryParams.getD [])
            "accessToken" = none)
      ∧ (dget ((api_request_build "POST" data
            (get_system_parameters ts rs sid (some tok)) tok).body.getD [])
            "accessToken" = some (.jstr tok)
        ∧ (api_request_build "POST" data
            (get_system_parameters ts rs sid (some tok)) tok).accessTokenHeader =
            none) := by
  intro ts rs sid tok data htok
  have hparams := get_system_parameters_token ts rs sid tok htok
  have hnodup := get_system_parameters_keys_nodup ts rs sid tok htok
  have hmerged : ∀ base : List (String × JVal),
      dget (dupdate base (get_system_parameters ts rs sid (some tok)))
        "accessToken" = some (.jstr tok) :=
    fun base => dget_dupdate_of_mem base _ _ _ hnodup hparams
  have hG : pyUpper "GET" = "GET" := by decide
  have hP : ¬ (pyUpper "POST" = "GET") := by decide
  refine ⟨hparams, ⟨?_, ?_, ?_⟩, ?_, ?_⟩
  · simp [api_request_build, hG]
  · simp [api_request_build, hG]
  · simp [api_request_build, hG]
    exact dget_derase_self _ _
  · have hne := isEmpty_false_of_dget_some _ _ _ (hmerged
      (match data with
       | some d => if d.isEmpty then [] else d
       | none => []))
    simp only [api_request_build, if_neg hP]
    rw [hne]
    simpa using hmerged _
  · simp only [api_request_build, if_neg hP]

/-- C2 witness: concrete instantiation of the amended parameter-placement
theorem. -/
theorem c2_amended_token_placement_witness :
    ("tok" : String) ≠ ""
    ∧ dget (get_system_parameters "1" "r" "s" (some "tok")) "accessToken" =
        some (.jstr "tok")
    ∧ dget ((api_request_build "GET" (some [("puid", JVal.jstr "X")])
        (get_system_parameters "1" "r" "s" (some "tok")) "tok").queryParams.getD [])
        "accessToken" = none
    ∧ dget ((api_request_build "POST" (some [("puid", JVal.jstr "X")])
        (get_system_parameters "1" "r" "s" (some "tok")) "tok").body.getD [])
        "accessToken" = some (.jstr "tok") :=
  ⟨by decide,
    (c2_amended_token_placement "1" "r" "s" "tok"
      (some [("puid", JVal.jstr "X")]) (by decide)).1,
    (c2_amended_token_placement "1" "r" "s" "tok"
      (some [("puid", JVal.jstr "X")]) (by decide)).2.1.2.2,
    (c2_amended_token_placement "1" "r" "s" "tok"
      (some [("puid", JVal.jstr "X")]) (by decide)).2.2.1⟩

/-! ### Response-envelope handling (api.py lines 185-215)

The outcome of the HTTP call: either an aiohttp ClientError (network
failure, and also raise_for_status, since ClientResponseError is a
ClientError), or a response with a status, a body text, and the outcome
of json.loads on that body (none when the body is not valid JSON). The
except clauses at lines 210-215 wrap every exception raised inside the
try block - including the ApiError raised for invalid JSON, non-object
responses and non-zero result codes - in a fresh ApiError. -/

inductive HttpResult : Type
  | clientError (msg : String)
  | httpResponse (status : ℕ) (bodyText : String) (parsed : Option JVal)

/-- The (opaque) message text of aiohttp ClientResponseError from
raise_for_status. -/
def raiseForStatusMsg (status : ℕ) : String := toString status

/-- response_data.get("resultCode") != 0: None and any non-zero,
non-false value compare unequal to 0 in Python. -/
def jNeqZero : Option JVal → Bool
  | some (.jnum q) => q ≠ 0
  | some (.jbool b) => b
  | some _ => true
  | none => true

/-- The response-decoding part of ConnectLifeApiClient._api_request,
api.py lines 185-215. -/
def api_response_handler (r : HttpResult) : Except CLError (List (String × JVal)) :=
  match r with
  | .clientError m => .error (.apiError ("HTTP request failed: " ++ m))
  | .httpResponse status bodyText parsed =>
    if 400 ≤ status then
      .error (.apiError ("HTTP request failed: " ++ raiseForStatusMsg status))
    else
      match parsed with
      | none =>
        .error (.apiError ("API request failed: "
          ++ ("Invalid JSON response: " ++ bodyText)))
      | some (.jobj fields) =>
        if jNeqZero (dget fields "resultCode") then
          .error (.apiError ("API request failed: " ++ ("API error: "
            ++ jstrOf ((dget fields "msg").getD (.jstr "Unknown error")))))
        else .ok fields
      | some v =>
        .error (.apiError ("API request failed: "
          ++ ("Unexpected response format: " ++ jpyrepr v)))

/-- C3 counterexample: a network failure, an invalid-JSON body and a
non-zero vendor result code all raise the same exception class ApiError
(exceptions TransportError and InvalidResponse do not exist in the code),
so the three cases are not distinguished by type as claimed. -/
theorem c3_single_error_class_counterexample :
    errClassOf (api_response_handler (.clientError "Cannot connect")) =
        some .apiError
    ∧ errClassOf (api_response_handler (.httpResponse 200 "not json" none)) =
        some .apiError
    ∧ errClassOf (api_response_handler (.httpResponse 200 "x"
        (some (.jobj [("resultCode", .jnum 1), ("msg", .jstr "bad")])))) =
        some .apiError := by
  decide

/-- C3 amended: the three failure cases each fail, but all with the one
ApiError class, distinguished only by message text: network/HTTP failure
gives "HTTP request failed: ...", a non-JSON or non-object body gives
"API request failed: Invalid JSON response: ..." (resp. "Unexpected
response format: ..."), and a non-zero result code gives "API request
failed: API error: <vendor message>", preserving the vendor message; a
JSON object envelope with result code 0 is returned. -/
theorem c3_amended_apiError_everywhere :
    (∀ m, api_response_handler (.clientError m) =
        .error (.apiError ("HTTP request failed: " ++ m)))
    ∧ (∀ (status : ℕ) (bodyText : String), status < 400 →
        api_response_handler (.httpResponse status bodyText none) =
          .error (.apiError ("API request failed: "
            ++ ("Invalid JSON response: " ++ bodyText))))
    ∧ (∀ (status : ℕ) (bodyText : String) (fields : List (String × JVal))
        (q : ℚ) (msg : String), status < 400 →
        dget fields "resultCode" = some (.jnum q) → q ≠ 0 →
        dget fields "msg" = some (.jstr msg) →
        api_response_handler (.httpResponse status bodyText (some (.jobj fields))) =
          .error (.apiError ("API request failed: " ++ ("API error: " ++ msg))))
    ∧ (∀ (status : ℕ) (bodyText : String) (fields : List (String × JVal)),
        status < 400 →
        dget fields "resultCode" = some (.jnum 0) →
        api_response_handler (.httpResponse status bodyText (some (.jobj fields))) =
          .ok fields)
    ∧ (∀ (status : ℕ) (bodyText : String) (v : JVal), status < 400 →
        (∀ fs, v ≠ .jobj fs) →
        errClassOf (api_response_handler (.httpResponse status bodyText (some v))) =
          some .apiError) := by
  refine ⟨fun m => rfl, ?_, ?_, ?_, ?_⟩
  · intro status bodyText hs
    simp [api_response_handler, Nat.not_le.mpr hs]
  · intro status bodyText fields q msg hs hrc hq hmsg
    simp [api_response_handler, Nat.not_le.mpr hs, hrc, hmsg, jNeqZero, jstrOf, hq]
  · intro status bodyText fields hs hrc
    simp [api_response_handler, Nat.not_le.mpr hs, hrc, jNeqZero]
  · intro status bodyText v hs hv
    cases v with
    | jobj fs => exact absurd rfl (hv fs)
    | jstr s => simp [api_response_handler, Nat.not_le.mpr hs, errClassOf, CLError.cls]
    | jnum q => simp [api_response_handler, Nat.not_le.mpr hs, errClassOf, CLError.cls]
    | jbool b => simp [api_response_handler, Nat.not_le.mpr hs, errClassOf, CLError.cls]
    | jnull => simp [api_response_handler, Nat.not_le.mpr hs, errClassOf, CLError.cls]
    | jarr xs => simp [api_response_handler, Nat.not_le.mpr hs, errClassOf, CLError.cls]

/-- C3 witness: concrete instantiation of every clause of the amended
theorem. -/
theorem c3_amended_apiError_everywhere_witness :
    ((200 : ℕ) < 400)
    ∧ api_response_handler (.clientError "boom") =
        .error (.apiError ("HTTP request failed: " ++ "boom"))
    ∧ api_response_handler (.httpResponse 200 "garbage" none) =
        .error (.apiError ("API request failed: "
          ++ ("Invalid JSON response: " ++ "garbage")))
    ∧ api_response_handler (.httpResponse 200 ""
        (some (.jobj [("resultCode", .jnum 5), ("msg", .jstr "oops")]))) =
        .error (.apiError ("API request failed: " ++ ("API error: " ++ "oops")))
    ∧ api_response_handler (.httpResponse 200 ""
        (some (.jobj [("resultCode", .jnum 0), ("deviceList", .jarr [])]))) =
        .ok [("resultCode", .jnum 0), ("deviceList", .jarr [])]
    ∧ errClassOf (api_response_handler (.httpResponse 200 "" (some (.jarr [])))) =
        some .apiError :=
  ⟨by decide,
    c3_amended_apiError_everywhere.1 "boom",
    c3_amended_apiError_everywhere.2.1 200 "garbage" (by decide),
    c3_amended_apiError_everywhere.2.2.1 200 ""
      [("resultCode", .jnum 5), ("msg", .jstr "oops")] 5 "oops"
      (by decide) rfl (by decide) rfl,
    c3_amended_apiError_everywhere.2.2.2.1 200 ""
      [("resultCode", .jnum 0), ("deviceList", .jarr [])] (by decide) rfl,
    c3_amended_apiError_everywhere.2.2.2.2 200 "" (.jarr []) (by decide)
      (fun fs h => JVal.noConfusion h)⟩

/-! ### Device attribute schema (device_parsers/base.py) -/

/-- dataclass DeviceAttribute, base.py lines 11-21. value_map is an
insertion-ordered dict of code to label. -/
structure DeviceAttribute : Type where
  key : String
  name : String
  attr_type : String
  step : Int := 1
  value_range : Option String := none
  value_map : Option (List (String × String)) := none
  read_write : String := "RW"
deriving DecidableEq

/-- Truthiness of an optional range string (None and "" are falsy). -/
def rangeTruthy : Option String → Bool
  | none => false
  | some s => s ≠ ""

/-- Truthiness of an optional value map (None and {} are falsy). -/
def mapTruthy : Option (List (String × String)) → Bool
  | none => false
  | some m => m ≠ []

/-- Python float() applied to a character list, with an optional sign
(list counterpart of parseFloatStr). -/
def parseFloatChars : List Char → Option ℚ
  | '-' :: rest => (parseFloatCore rest).map Neg.neg
  | '+' :: rest => parseFloatCore rest
  | cs => parseFloatCore cs

/-- The range loop of validate_value, base.py lines 100-106: the pieces
of value_range split on ",", tried in order; a piece with "~" is a
lo~hi interval (malformed pieces raise ValueError, caught at line 112,
aborting the whole loop with False), otherwise a literal compared after
float coercion. -/
def rangesLoop (q : ℚ) : List (List Char) → Bool
  | [] => false
  | r :: rest =>
    if r.contains '~' then
      match splitOnChar '~' r with
      | [a, b] =>
        match parseFloatChars a, parseFloatChars b with
        | some lo, some hi => if lo ≤ q ∧ q ≤ hi then true else rangesLoop q rest
        | _, _ => false
      | _ => false
    else
      match parseFloatChars r with
      | some x => if q = x then true else rangesLoop q rest
      | none => false

/-- value_range acceptance for an already-coerced numeric value. -/
def validate_range (rangeStr : String) (q : ℚ) : Bool :=
  rangesLoop q (splitOnChar ',' rangeStr.data)

/-- BaseDeviceParser.validate_value, base.py lines 83-126. Fails closed:
unknown key, read-only key, failed float coercion, out-of-range value and
(when no range is declared) value missing from the enum map all give
False. Note the code returns from the range branch without consulting the
enum map when a range is declared. -/
def validate_value (attrs : List (String × DeviceAttribute)) (key : String)
    (v : PyVal) : Bool :=
  match dget attrs key with
  | none => false
  | some attr =>
    if attr.read_write = "R" then false
    else if rangeTruthy attr.value_range then
      match pyFloat v with
      | none => false
      | some q => validate_range (attr.value_range.getD "") q
    else if mapTruthy attr.value_map then
      (dget (attr.value_map.getD []) (pyStr v)).isSome
    else true

/-- value in attr.value_map (raw containment: Python `value in dict`
matches string keys only against string values). -/
def rawMapLookup (m : Option (List (String × String))) (v : PyVal) : Option String :=
  match m, v with
  | some mm, .str s => dget mm s
  | _, _ => none

/-- The per-key body of BaseDeviceParser.parse_status, base.py lines
63-79: enum substitution when the raw value is a map key, else float
coercion for Number attributes (ValueError/TypeError skips the key), else
passthrough. -/
def parseAttrValue (attr : DeviceAttribute) (v : PyVal) : Option PyVal :=
  match rawMapLookup attr.value_map v with
  | some lbl => some (.str lbl)
  | none =>
    if attr.attr_type = "Number" then (pyFloat v).map PyVal.float
    else some v

/-- BaseDeviceParser.parse_status, base.py lines 51-81: iterates the
schema attributes in order and processes those present in the raw status. -/
def parse_status (attrs : List (String × DeviceAttribute))
    (status : List (String × PyVal)) : List (String × PyVal) :=
  attrs.filterMap (fun p =>
    (dget status p.1).bind (fun v =>
      (parseAttrValue p.2 v).map (fun w => (p.1, w))))

/-! ### BaseBeanParser attribute table (device_parsers/base_bean.py 26-174) -/

def baseBeanAttributes : List (String × DeviceAttribute) :=
  [("t_work_mode",
    { key := "t_work_mode", name := "Mode", attr_type := "Enum", step := 1
      value_range := some "0,1,2,3,4,5"
      value_map := some [("0", "Fan"), ("1", "Heat"), ("2", "Cool"),
        ("3", "Dry"), ("4", "Auto"), ("5", "E-star")]
      read_write := "RW" }),
   ("t_power",
    { key := "t_power", name := "Power", attr_type := "Enum", step := 1
      value_range := some "0,1"
      value_map := some [("0", "Off"), ("1", "On")], read_write := "RW" }),
   ("t_temp",
    { key := "t_temp", name := "Target Temperature", attr_type := "Number"
      step := 1, value_range := some "16~32,61~90", read_write := "RW" }),
   ("t_fan_speed",
    { key := "t_fan_speed", name := "Fan Speed", attr_type := "Enum", step := 1
      value_range := some "0,5,6,7,8,9"
      value_map := some [("2", "Low"), ("3", "Medium"), ("4", "High"),
        ("0", "Auto"), ("5", "Low"), ("6", "Mid-Low"), ("7", "Mid"),
        ("8", "Mid-High"), ("9", "High")]
      read_write := "RW" }),
   ("t_up_down",
    { key := "t_up_down", name := "Swing Vertical", attr_type := "Enum"
      step := 1, value_range := some "0,1"
      value_map := some [("0", "Off"), ("1", "On")], read_write := "RW" }),
   ("t_temp_type",
    { key := "t_temp_type", name := "Temperature Unit", attr_type := "Enum"
      step := 1, value_range := some "0,1"
      value_map := some [("0", "Celsius"), ("1", "Fahrenheit")]
      read_write := "RW" }),
   ("t_left_right",
    { key := "t_left_right", name := "Swing Horizontal", attr_type := "Enum"
      step := 1, value_range := some "0,1"
      value_map := some [("0", "Off"), ("1", "On")], read_write := "RW" }),
   ("f_power_consumption",
    { key := "f_power_consumption", name := "Power Consumption"
      attr_type := "Number", read_write := "R" }),
   ("t_fan_mute",
    { key := "t_fan_mute", name := "Quiet Mode", attr_type := "Enum", step := 1
      value_range := some "0,1"
      value_map := some [("0", "Off"), ("1", "On")], read_write := "RW" }),
   ("f_temp_in",
    { key := "f_temp_in", name := "Indoor Temperature", attr_type := "Number"
      read_write := "R" }),
   ("t_8heat",
    { key := "t_8heat", name := "8C Heat", attr_type := "Enum", step := 1
      value_range := some "0,1"
      value_map := some [("0", "Off"), ("1", "On")], read_write := "RW" }),
   ("t_eco",
    { key := "t_eco", name := "Eco Mode", attr_type := "Enum", step := 1
      value_range := some "0,1"
      value_map := some [("0", "Off"), ("1", "On")], read_write := "RW" }),
   ("t_humidity",
    { key := "t_humidity", name := "Target Humidity", attr_type := "Number"
      step := 5, value_range := some "30~80", read_write := "RW" }),
   ("f_humidity",
    { key := "f_humidity", name := "Indoor Humidity", attr_type := "Number"
      step := 1, value_range := some "30~90", read_write := "R" }),
   ("t_super",
    { key := "t_super", name := "Turbo", attr_type := "Enum", step := 1
      value_range := some "0,1"
      value_map := some [("0", "Off"), ("1", "On")], read_write := "RW" })]

/-! ### Device parser registry (device_parsers/init, lines 20-56) -/

/-- The parser classes of the device_parsers package. -/
inductive ParserKind : Type
  | heatPump035699 | portableAC006299 | dehumidifier007 | oven013
  | heatPump044 | hubController043 | splitAC009199 | windowAC008399
  | baseBean
deriving DecidableEq

/-- The DEVICE_PARSERS registry dict, exactly the six entries of the
source (neither SplitAC009199Parser nor WindowAC008399Parser is
registered). -/
def DEVICE_PARSERS : List ((String × String) × ParserKind) :=
  [(("035", "699"), .heatPump035699),
   (("006", "299"), .portableAC006299),
   (("007", ""), .dehumidifier007),
   (("013", ""), .oven013),
   (("044", ""), .heatPump044),
   (("043", ""), .hubController043)]

/-- get_device_parser, device_parsers/init lines 30-56: exact (type,
feature) probe, then (type, "") wildcard, then the dehumidifier special
case, then the generic bean fallback for legacy AC types, else
ValueError. -/
def get_device_parser_fn (device_type feature_code : String) :
    Except String ParserKind :=
  match dget DEVICE_PARSERS (device_type, feature_code) with
  | some p => .ok p
  | none =>
    match dget DEVICE_PARSERS (device_type, "") with
    | some p => .ok p
    | none =>
      if device_type = "007" then .ok .dehumidifier007
      else if device_type ∈ ["009", "008", "006", "016"] then .ok .baseBean
      else .error ("Unsupported device type: " ++ device_type)

/-- C4 counterexample: the registry holds no ("009","199") entry at all
(SplitAC009199Parser is never registered), so schema resolution for the
scenario device cannot and does not select an exact (009,199) match: it
returns the generic BaseBeanParser. -/
theorem c4_no_exact_match_counterexample :
    dget DEVICE_PARSERS ("009", "199") = none
    ∧ get_device_parser_fn "009" "199" = .ok .baseBean :=
  ⟨rfl, rfl⟩

/-- C4 amended: for the type "009" / feature "199" device the exact and
wildcard registry probes both miss and resolution falls through to the
legacy generic fallback, yielding BaseBeanParser; parsing the scenario
status with its schema still maps t_work_mode "2" to "Cool" (and t_power
"1" to "On"). -/
theorem c4_amended_generic_fallback :
    get_device_parser_fn "009" "199" = .ok .baseBean
    ∧ dget DEVICE_PARSERS ("009", "199") = none
    ∧ dget DEVICE_PARSERS ("009", "") = none
    ∧ parse_status baseBeanAttributes
        [("t_power", .str "1"), ("t_work_mode", .str "2")] =
      [("t_work_mode", .str "Cool"), ("t_power", .str "On")] := by
  refine ⟨rfl, rfl, rfl, by decide⟩

theorem validate_range_t_temp (q : ℚ) :
    validate_range "16~32,61~90" q =
      decide ((16 ≤ q ∧ q ≤ 32) ∨ (61 ≤ q ∧ q ≤ 90)) := by
  have h1 : splitOnChar ',' ("16~32,61~90".data) =
      ["16~32".data, "61~90".data] := by decide
  have h2 : ("16~32".data).contains '~' = true := by decide
  have h3 : ("61~90".data).contains '~' = true := by decide
  have h4 : splitOnChar '~' ("16~32".data) = ["16".data, "32".data] := by decide
  have h5 : splitOnChar '~' ("61~90".data) = ["61".data, "90".data] := by decide
  have h6 : parseFloatChars ("16".data) = some 16 := by decide
  have h7 : parseFloatChars ("32".data) = some 32 := by decide
  have h8 : parseFloatChars ("61".data) = some 61 := by decide
  have h9 : parseFloatChars ("90".data) = some 90 := by decide
  unfold validate_range
  rw [h1]
  simp only [rangesLoop, h2, h3, h4, h5, h6, h7, h8, h9]
  by_cases hA : (16 : ℚ) ≤ q ∧ q ≤ 32
  · simp [hA]
  · by_cases hB : (61 : ℚ) ≤ q ∧ q ≤ 90 <;> simp [hA, hB]

/-- C6 counterexample: for the enum attribute t_power (range "0,1", map
keys "0" and "1"), the value "1.0" is not a key of the enum map, yet
validate_value accepts it, because a declared range makes the numeric
range check decide alone and float("1.0") equals float("1"). -/
theorem c6_enum_bypass_counterexample :
    validate_value baseBeanAttributes "t_power" (.str "1.0") = true
    ∧ (dget baseBeanAttributes "t_power").bind (fun a => a.value_map) =
        some [("0", "Off"), ("1", "On")]
    ∧ dget [("0", "Off"), ("1", "On")] "1.0" = none := by
  refine ⟨by decide, rfl, rfl⟩

/-- C6 amended: validate_value fails closed - false for unknown key,
read-only key, uncoercible value, numeric value outside every declared
range piece, and, when NO range is declared, value whose str() is not an
enum-map key; but when a range is declared the enum map is never
consulted, so a range-satisfying numeric value is accepted even if it is
not an enum key. For t_temp (range "16~32,61~90") exactly the values of
the two closed intervals are accepted: 16, 32, 61, 90 and everything
between, while 33 and 95 are rejected. -/
theorem c6_amended_validate_value :
    (∀ (k : String) (v : PyVal), dget baseBeanAttributes k = none →
        validate_value baseBeanAttributes k v = false)
    ∧ (∀ v : PyVal, validate_value baseBeanAttributes "f_temp_in" v = false)
    ∧ (∀ q : ℚ, validate_value baseBeanAttributes "t_temp" (.float q) =
        decide ((16 ≤ q ∧ q ≤ 32) ∨ (61 ≤ q ∧ q ≤ 90)))
    ∧ (validate_value baseBeanAttributes "t_temp" (.int 16) = true
      ∧ validate_value baseBeanAttributes "t_temp" (.int 32) = true
      ∧ validate_value baseBeanAttributes "t_temp" (.int 61) = true
      ∧ validate_value baseBeanAttributes "t_temp" (.int 90) = true
      ∧ validate_value baseBeanAttributes "t_temp" (.int 33) = false
      ∧ validate_value baseBeanAttributes "t_temp" (.int 95) = false)
    ∧ (∀ (attrs : List (String × DeviceAttribute)) (k : String)
        (attr : DeviceAttribute) (v : PyVal),
        dget attrs k = some attr → attr.read_write ≠ "R" →
        rangeTruthy attr.value_range = false → mapTruthy attr.value_map = true →
        validate_value attrs k v =
          (dget (attr.value_map.getD []) (pyStr v)).isSome)
    ∧ (∀ (attrs : List (String × DeviceAttribute)) (k : String)
        (attr : DeviceAttribute) (v : PyVal),
        dget attrs k = some attr → attr.read_write ≠ "R" →
        rangeTruthy attr.value_range = true → pyFloat v = none →
        validate_value attrs k v = false) := by
  refine ⟨?_, ?_, ?_, ?_, ?_, ?_⟩
  · intro k v h
    simp [validate_value, h]
  · intro v
    rfl
  · intro q
    have h : validate_value baseBeanAttributes "t_temp" (.float q) =
        validate_range "16~32,61~90" q := rfl
    rw [h, validate_range_t_temp]
  · exact ⟨by decide, by decide, by decide, by decide, by decide, by decide⟩
  · intro attrs k attr v hget hrw hrange hmap
    simp [validate_value, hget, hrw, hrange, hmap]
  · intro attrs k attr v hget hrw hrange hfl
    simp [validate_value, hget, hrw, hrange, hfl]

/-- A one-attribute schema with an enum map and no declared range (the
configuration in which the enum-map clause of validate_value applies). -/
def modeOnlyAttr : DeviceAttribute :=
  { key := "mode", name := "Mode", attr_type := "Enum"
    value_map := some [("0", "Off"), ("1", "On")] }

def modeOnlyAttrs : List (String × DeviceAttribute) := [("mode", modeOnlyAttr)]

/-- C6 witness: concrete instantiations of every clause of the amended
validate_value theorem. -/
theorem c6_amended_validate_value_witness :
    (dget baseBeanAttributes "no_such_key" = none
      ∧ validate_value baseBeanAttributes "no_such_key" (.int 0) = false)
    ∧ validate_value baseBeanAttributes "f_temp_in" (.int 20) = false
    ∧ validate_value baseBeanAttributes "t_temp" (.float (33 / 2)) = true
    ∧ validate_value baseBeanAttributes "t_temp" (.int 33) = false
    ∧ validate_value modeOnlyAttrs "mode" (.str "5") = false
    ∧ validate_value baseBeanAttributes "t_temp" (.str "abc") = false := by
  refine ⟨⟨by decide, c6_amended_validate_value.1 "no_such_key" (.int 0)
      (by decide)⟩,
    c6_amended_validate_value.2.1 (.int 20), ?_,
    c6_amended_validate_value.2.2.2.1.2.2.2.2.1, ?_, ?_⟩
  · rw [c6_amended_validate_value.2.2.1 (33 / 2)]
    decide
  · rw [c6_amended_validate_value.2.2.2.2.1 modeOnlyAttrs "mode" modeOnlyAttr
      (.str "5") rfl (by decide) (by decide) (by decide)]
    decide
  · exact c6_amended_validate_value.2.2.2.2.2 baseBeanAttributes "t_temp"
      { key := "t_temp", name := "Target Temperature", attr_type := "Number"
        step := 1, value_range := some "16~32,61~90", read_write := "RW" }
      (.str "abc") rfl (by decide) (by decide) rfl

theorem mem_dkeys_parse_status (attrs : List (String × DeviceAttribute))
    (status : List (String × PyVal)) (k : String)
    (h : k ∈ dkeys (parse_status attrs status)) : k ∈ dkeys attrs := by
  induction attrs with
  | nil => simp [parse_status, dkeys] at h
  | cons p rest ih =>
    obtain ⟨k0, a0⟩ := p
    simp only [parse_status, List.filterMap_cons] at h
    cases hv : (dget status k0).bind
        (fun v => (parseAttrValue a0 v).map (fun w => (k0, w))) with
    | none =>
      rw [hv] at h
      exact List.mem_cons_of_mem _ (ih h)
    | some e =>
      rw [hv] at h
      obtain ⟨v, hv1, he⟩ := Option.bind_eq_some.mp hv
      obtain ⟨w, hw1, he2⟩ := Option.map_eq_some'.mp he
      subst he2
      simp only [dkeys, List.map_cons, List.mem_cons] at h ⊢
      rcases h with h | h
      · exact Or.inl h
      · exact Or.inr (ih h)

/-- C7: parse_status processes exactly the schema keys present in the raw
status: with the enum label substituted when the raw value is a map key,
the value coerced to float when the kind is Number (a failing coercion
skipping just that key), and the raw value passed through otherwise; raw
keys absent from the schema never reach the result. -/
theorem c7_parse_status_per_key :
    ∀ (attrs : List (String × DeviceAttribute)) (status : List (String × PyVal))
      (k : String), (dkeys attrs).Nodup →
      dget (parse_status attrs status) k =
        match dget attrs k, dget status k with
        | some attr, some v =>
          (match rawMapLookup attr.value_map v with
           | some lbl => some (PyVal.str lbl)
           | none =>
             if attr.attr_type = "Number" then (pyFloat v).map PyVal.float
             else some v)
        | _, _ => none := by
  intro attrs status k hnd
  induction attrs with
  | nil => simp [parse_status, dget]
  | cons p rest ih =>
    obtain ⟨k0, a0⟩ := p
    simp only [dkeys, List.map_cons, List.nodup_cons] at hnd
    by_cases hk : k0 = k
    · subst hk
      have hget : dget ((k0, a0) :: rest) k0 = some a0 := by simp [dget]
      rw [hget]
      cases hv : dget status k0 with
      | none =>
        simp only [parse_status, List.filterMap_cons, hv, Option.none_bind]
        show dget (parse_status rest status) k0 = none
        rw [dget_eq_none_iff_not_mem]
        exact fun hm => hnd.1 (mem_dkeys_parse_status rest status k0 hm)
      | some v =>
        show dget _ k0 = parseAttrValue a0 v
        cases hpv : parseAttrValue a0 v with
        | none =>
          simp only [parse_status, List.filterMap_cons, hv, Option.some_bind,
            hpv, Option.map_none']
          show dget (parse_status rest status) k0 = none
          rw [dget_eq_none_iff_not_mem]
          exact fun hm => hnd.1 (mem_dkeys_parse_status rest status k0 hm)
        | some w =>
          simp only [parse_status, List.filterMap_cons, hv, Option.some_bind,
            hpv, Option.map_some']
          show dget ((k0, w) :: _) k0 = some w
          simp [dget]
    · have hget : dget ((k0, a0) :: rest) k = dget rest k := by
        simp [dget, hk]
      rw [hget]
      simp only [parse_status, List.filterMap_cons]
      cases hv : dget status k0 with
      | none =>
        simp only [Option.none_bind]
        exact ih hnd.2
      | some v =>
        cases hpv : parseAttrValue a0 v with
        | none =>
          simp only [Option.some_bind, hpv, Option.map_none']
          exact ih hnd.2
        | some w =>
          simp only [Option.some_bind, hpv, Option.map_some']
          show dget ((k0, w) :: _) k = _
          simp only [dget, if_neg hk]
          exact ih hnd.2

def c7Status : List (String × PyVal) :=
  [("t_work_mode", .str "2"), ("t_temp", .str "abc"),
   ("f_temp_in", .str "21.5"), ("bogus", .str "7")]

/-- C7 witness: the characterization evaluated on the bean schema with a
status containing an enum code, an uncoercible Number value, a fractional
Number value, and a key unknown to the schema. -/
theorem c7_parse_status_per_key_witness :
    (dkeys baseBeanAttributes).Nodup
    ∧ dget (parse_status baseBeanAttributes c7Status) "t_work_mode" =
        some (.str "Cool")
    ∧ dget (parse_status baseBeanAttributes c7Status) "t_temp" = none
    ∧ dget (parse_status baseBeanAttributes c7Status) "f_temp_in" =
        some (.float (43 / 2))
    ∧ dget (parse_status baseBeanAttributes c7Status) "bogus" = none :=
  ⟨by decide,
    (c7_parse_status_per_key baseBeanAttributes c7Status "t_work_mode"
      (by decide)).trans (by decide),
    (c7_parse_status_per_key baseBeanAttributes c7Status "t_temp"
      (by decide)).trans (by decide),
    (c7_parse_status_per_key baseBeanAttributes c7Status "f_temp_in"
      (by decide)).trans (by decide),
    (c7_parse_status_per_key baseBeanAttributes c7Status "bogus"
      (by decide)).trans (by decide)⟩

/-! ### Parser narrowing (api.py _create_filtered_parser, lines 357-406) -/

/-- One entry of the dynamic property list (a JSON dict): presence of
propertyKey and propertyValueList. -/
structure PropEntry : Type where
  propertyKey : Option String := none
  propertyValueList : Option String := none
deriving DecidableEq

/-- The property-key set comprehension of api.py lines 364-366 (before
deduplication; only membership in it is ever used). -/
def propKeysOf (props : List PropEntry) : List String :=
  props.filterMap (fun p => p.propertyKey)

/-- Set deduplication. The iteration order of a Python set is
unspecified; first-occurrence order is one valid model, and the claims
only use membership. -/
def dedupKeys : List String → List String
  | [] => []
  | k :: rest => k :: (dedupKeys rest).filter (fun j => j ≠ k)

theorem mem_dedupKeys (l : List String) (k : String) :
    k ∈ dedupKeys l ↔ k ∈ l := by
  induction l with
  | nil => simp [dedupKeys]
  | cons a rest ih =>
    simp only [dedupKeys, List.mem_cons, List.mem_filter]
    by_cases hk : k = a
    · simp [hk]
    · simp [hk, ih]

theorem nodup_dedupKeys (l : List String) : (dedupKeys l).Nodup := by
  induction l with
  | nil => simp [dedupKeys]
  | cons a rest ih =>
    simp only [dedupKeys, List.nodup_cons]
    refine ⟨?_, ih.filter _⟩
    intro hmem
    rw [List.mem_filter] at hmem
    simp at hmem

/-- The first property-list entry whose propertyKey equals the key, and
its propertyValueList (api.py lines 374-379; the inner loop breaks at the
first match, and a match always exists for keys drawn from the property
key set). -/
def firstPVL (props : List PropEntry) (k : String) : Option String :=
  (props.find? (fun p => p.propertyKey = some k)).bind
    (fun p => p.propertyValueList)

/-- The in-place mutation of one retained DeviceAttribute (api.py lines
371-389): replace value_range by a truthy propertyValueList, and filter a
truthy value_map down to the keys of the comma-separated value list. -/
def updateAttr (attr : DeviceAttribute) (pvl : Option String) : DeviceAttribute :=
  let a1 := if rangeTruthy pvl then { attr with value_range := pvl } else attr
  match a1.value_map with
  | some m =>
    if m ≠ [] ∧ rangeTruthy pvl then
      { a1 with value_map := some (m.filter (fun kv =>
          decide (kv.1.data ∈ splitOnChar ',' ((pvl.getD "").data)))) }
    else a1
  | none => a1

/-- The read-only power-consumption attribute added when missing
(api.py lines 394-401). -/
def powerConsumptionAttr : DeviceAttribute :=
  { key := "f_power_consumption", name := "Power Consumption"
    attr_type := "Number", step := 1, read_write := "R" }

/-- The key loop of _create_filtered_parser over the deduplicated
property keys. The retained DeviceAttribute objects are SHARED with the
base dict and mutated in place, so the function returns both the filtered
dict being built and the base dict as it stands after those mutations. -/
def cfpGo (props : List PropEntry) (base : List (String × DeviceAttribute)) :
    List String →
      List (String × DeviceAttribute) × List (String × DeviceAttribute)
  | [] => ([], base)
  | k :: rest =>
    match dget base k with
    | none => cfpGo props base rest
    | some attr =>
      let a2 := updateAttr attr (firstPVL props k)
      let r := cfpGo props (dset base k a2) rest
      ((k, a2) :: r.1, r.2)

/-- ConnectLifeApiClient._create_filtered_parser, api.py lines 357-406:
returns the new filtered attribute table (the attributes of the returned
BaseBeanParser) together with the base table after the shared-object
mutations. -/
def create_filtered_parser_fn (base : List (String × DeviceAttribute))
    (props : List PropEntry) :
    List (String × DeviceAttribute) × List (String × DeviceAttribute) :=
  let r := cfpGo props base (dedupKeys (propKeysOf props))
  (if dget r.1 "f_power_consumption" = none then
      dset r.1 "f_power_consumption" powerConsumptionAttr
    else r.1, r.2)

theorem cfpGo_fst_mem (props : List PropEntry) (ks : List String)
    (base : List (String × DeviceAttribute)) (k : String) :
    k ∈ dkeys (cfpGo props base ks).1 ↔ k ∈ ks ∧ k ∈ dkeys base := by
  induction ks generalizing base with
  | nil => simp [cfpGo, dkeys]
  | cons k0 rest ih =>
    cases hg : dget base k0 with
    | none =>
      simp only [cfpGo, hg]
      rw [ih]
      constructor
      · rintro ⟨h1, h2⟩
        exact ⟨List.mem_cons_of_mem _ h1, h2⟩
      · rintro ⟨h1, h2⟩
        rcases List.mem_cons.mp h1 with h1 | h1
        · subst h1
          exact absurd ((dget_isSome_iff_mem base k).mpr h2) (by simp [hg])
        · exact ⟨h1, h2⟩
    | some attr =>
      have hk0mem : k0 ∈ dkeys base :=
        (dget_isSome_iff_mem base k0).mp (by simp [hg])
      have hcons : ∀ (a : DeviceAttribute) (l : List (String × DeviceAttribute)),
          k ∈ dkeys ((k0, a) :: l) ↔ k = k0 ∨ k ∈ dkeys l := by
        intro a l
        simp [dkeys]
      simp only [cfpGo, hg]
      rw [hcons, ih, dkeys_dset_of_mem base k0 _ hk0mem, List.mem_cons]
      constructor
      · rintro (rfl | ⟨h1, h2⟩)
        · exact ⟨Or.inl rfl, hk0mem⟩
        · exact ⟨Or.inr h1, h2⟩
      · rintro ⟨h1, h2⟩
        rcases h1 with rfl | h1
        · exact Or.inl rfl
        · exact Or.inr ⟨h1, h2⟩

theorem cfpGo_snd (props : List PropEntry) (ks : List String)
    (base : List (String × DeviceAttribute)) (hnd : ks.Nodup) :
    (dkeys (cfpGo props base ks).2 = dkeys base)
    ∧ (∀ k, k ∉ ks → dget (cfpGo props base ks).2 k = dget base k)
    ∧ (∀ k attr, k ∈ ks → dget base k = some attr →
        dget (cfpGo props base ks).2 k =
          some (updateAttr attr (firstPVL props k))
        ∧ dget (cfpGo props base ks).1 k =
          some (updateAttr attr (firstPVL props k))) := by
  induction ks generalizing base with
  | nil =>
    exact ⟨rfl, fun k _ => rfl, fun k attr h => absurd h (List.not_mem_nil k)⟩
  | cons k0 rest ih =>
    simp only [List.nodup_cons] at hnd
    cases hg : dget base k0 with
    | none =>
      have ih2 := ih base hnd.2
      refine ⟨by simpa [cfpGo, hg] using ih2.1, ?_, ?_⟩
      · intro k hk
        simp only [List.mem_cons, not_or] at hk
        simpa [cfpGo, hg] using ih2.2.1 k hk.2
      · intro k attr hk hattr
        rcases List.mem_cons.mp hk with rfl | hk
        · exact absurd hattr (by simp [hg])
        · simpa [cfpGo, hg] using ih2.2.2 k attr hk hattr
    | some attr0 =>
      have hk0mem : k0 ∈ dkeys base :=
        (dget_isSome_iff_mem base k0).mp (by simp [hg])
      have ih2 := ih (dset base k0 (updateAttr attr0 (firstPVL props k0))) hnd.2
      refine ⟨?_, ?_, ?_⟩
      · rw [show (cfpGo props base (k0 :: rest)).2 =
            (cfpGo props (dset base k0 (updateAttr attr0 (firstPVL props k0)))
              rest).2 from by simp [cfpGo, hg]]
        rw [ih2.1, dkeys_dset_of_mem base k0 _ hk0mem]
      · intro k hk
        simp only [List.mem_cons, not_or] at hk
        rw [show (cfpGo props base (k0 :: rest)).2 =
            (cfpGo props (dset base k0 (updateAttr attr0 (firstPVL props k0)))
              rest).2 from by simp [cfpGo, hg]]
        rw [ih2.2.1 k hk.2, dget_dset_ne _ _ _ _ hk.1]
      · intro k attr hk hattr
        have hsnd : (cfpGo props base (k0 :: rest)).2 =
            (cfpGo props (dset base k0 (updateAttr attr0 (firstPVL props k0)))
              rest).2 := by simp [cfpGo, hg]
        have hfst : (cfpGo props base (k0 :: rest)).1 =
            (k0, updateAttr attr0 (firstPVL props k0)) ::
              (cfpGo props (dset base k0 (updateAttr attr0 (firstPVL props k0)))
                rest).1 := by simp [cfpGo, hg]
        rcases List.mem_cons.mp hk with rfl | hk
        · have hattr0 : attr = attr0 := by
            rw [hg] at hattr
            exact (Option.some.inj hattr).symm
          subst hattr0
          constructor
          · rw [hsnd, ih2.2.1 k hnd.1, dget_dset_self]
          · rw [hfst]
            simp [dget]
        · have hkne : k ≠ k0 := fun hh => hnd.1 (hh ▸ hk)
          have hbase : dget (dset base k0 (updateAttr attr0 (firstPVL props k0)))
              k = some attr := by
            rw [dget_dset_ne _ _ _ _ hkne]
            exact hattr
          constructor
          · rw [hsnd]
            exact (ih2.2.2 k attr hk hbase).1
          · rw [hfst]
            simp only [dget, if_neg (fun hh : k0 = k => hkne hh.symm)]
            exact (ih2.2.2 k attr hk hbase).2

theorem create_filtered_fst_mem (base : List (String × DeviceAttribute))
    (props : List PropEntry) (k : String) :
    k ∈ dkeys (create_filtered_parser_fn base props).1 ↔
      ((k ∈ propKeysOf props ∧ k ∈ dkeys base) ∨ k = "f_power_consumption") := by
  show k ∈ dkeys (if dget (cfpGo props base (dedupKeys (propKeysOf props))).1
      "f_power_consumption" = none then
      dset (cfpGo props base (dedupKeys (propKeysOf props))).1
        "f_power_consumption" powerConsumptionAttr
    else (cfpGo props base (dedupKeys (propKeysOf props))).1) ↔ _
  by_cases hfpc :
      dget (cfpGo props base (dedupKeys (propKeysOf props))).1
        "f_power_consumption" = none
  · rw [if_pos hfpc, mem_dkeys_dset, cfpGo_fst_mem, mem_dedupKeys]
  · rw [if_neg hfpc, cfpGo_fst_mem, mem_dedupKeys]
    constructor
    · exact fun h => Or.inl h
    · rintro (h | rfl)
      · exact h
      · have hmem : ("f_power_consumption" : String) ∈ dkeys
            (cfpGo props base (dedupKeys (propKeysOf props))).1 := by
          rw [← dget_isSome_iff_mem]
          cases hd : dget (cfpGo props base (dedupKeys (propKeysOf props))).1
              "f_power_consumption" with
          | none => exact absurd hd hfpc
          | some a => rfl
        rw [cfpGo_fst_mem, mem_dedupKeys] at hmem
        exact hmem

theorem mem_dkeys_parse_status_iff (attrs : List (String × DeviceAttribute))
    (status : List (String × PyVal))
    (hco : ∀ j v, dget status j = some v → (pyFloat v).isSome = true)
    (k : String) :
    k ∈ dkeys (parse_status attrs status) ↔
      k ∈ dkeys attrs ∧ k ∈ dkeys status := by
  induction attrs with
  | nil => simp [parse_status, dkeys]
  | cons p rest ih =>
    obtain ⟨k0, a0⟩ := p
    have hcons : ∀ (a : DeviceAttribute) (l : List (String × DeviceAttribute)),
        k ∈ dkeys ((k0, a) :: l) ↔ k = k0 ∨ k ∈ dkeys l := by
      intro a l
      simp [dkeys]
    simp only [parse_status, List.filterMap_cons]
    cases hv : dget status k0 with
    | none =>
      simp only [Option.none_bind]
      rw [show (List.filterMap (fun p =>
          (dget status p.1).bind (fun v =>
            (parseAttrValue p.2 v).map (fun w => (p.1, w)))) rest) =
          parse_status rest status from rfl, ih, hcons]
      constructor
      · rintro ⟨h1, h2⟩
        exact ⟨Or.inr h1, h2⟩
      · rintro ⟨h1 | h1, h2⟩
        · subst h1
          exact absurd ((dget_isSome_iff_mem status k).mpr h2) (by simp [hv])
        · exact ⟨h1, h2⟩
    | some v =>
      have hsome : (parseAttrValue a0 v).isSome = true := by
        have hq := hco k0 v hv
        unfold parseAttrValue
        cases hml : rawMapLookup a0.value_map v with
        | some lbl => rfl
        | none =>
          by_cases hn : a0.attr_type = "Number"
          · simp only [hn, if_pos rfl]
            cases hqq : pyFloat v with
            | none => rw [hqq] at hq; simp at hq
            | some q => rfl
          · simp [hn]
      obtain ⟨w, hw⟩ := Option.isSome_iff_exists.mp hsome
      simp only [hv, Option.some_bind, hw, Option.map_some']
      have hkstat : k0 ∈ dkeys status :=
        (dget_isSome_iff_mem status k0).mp (by simp [hv])
      rw [show ∀ l : List (String × PyVal),
          (k ∈ dkeys ((k0, w) :: l) ↔ k = k0 ∨ k ∈ dkeys l) from
          fun l => by simp [dkeys]]
      rw [show (List.filterMap (fun p =>
          (dget status p.1).bind (fun v =>
            (parseAttrValue p.2 v).map (fun w => (p.1, w)))) rest) =
          parse_status rest status from rfl, ih, hcons]
      constructor
      · rintro (rfl | ⟨h1, h2⟩)
        · exact ⟨Or.inl rfl, hkstat⟩
        · exact ⟨Or.inr h1, h2⟩
      · rintro ⟨h1 | h1, h2⟩
        · exact Or.inl h1
        · exact Or.inr ⟨h1, h2⟩

def c8CexProps : List PropEntry := [{ propertyKey := some "t_power" }]

def c8CexStatus : List (String × PyVal) := [("t_power", .str "1")]

/-- C8 counterexample: for the bean schema narrowed to the single
property t_power, parsing a status holding exactly that key yields only
t_power - f_power_consumption is in the narrowed schema but not in the
status, so the claimed key-set equation (which puts f_power_consumption
in the result unconditionally) fails. -/
theorem c8_round_trip_counterexample :
    ¬ (∀ k, k ∈ dkeys (parse_status
          (create_filtered_parser_fn baseBeanAttributes c8CexProps).1
          c8CexStatus) ↔
        ((k ∈ propKeysOf c8CexProps ∧ k ∈ dkeys baseBeanAttributes)
          ∨ k = "f_power_consumption")) := by
  intro h
  have h2 := (h "f_power_consumption").mpr (Or.inr rfl)
  revert h2
  decide

/-- C8 amended: narrowing then parsing a status whose key set is exactly
the property list gives a result whose key set is
(propertyList ∩ base.keys()) ∪ ({f_power_consumption} ∩ propertyList) -
the synthetic power-consumption key shows up only when the property list
itself carries it - provided every status value coerces to float (an
uncoercible Number value would drop its key). -/
theorem c8_amended_round_trip :
    ∀ (base : List (String × DeviceAttribute)) (props : List PropEntry)
      (status : List (String × PyVal)),
      (∀ j, j ∈ dkeys status ↔ j ∈ propKeysOf props) →
      (∀ j v, dget status j = some v → (pyFloat v).isSome = true) →
      ∀ k, k ∈ dkeys (parse_status
          (create_filtered_parser_fn base props).1 status) ↔
        ((k ∈ propKeysOf props ∧ k ∈ dkeys base)
          ∨ (k = "f_power_consumption" ∧ k ∈ propKeysOf props)) := by
  intro base props status hkeys hco k
  rw [mem_dkeys_parse_status_iff _ _ hco k, create_filtered_fst_mem,
    hkeys k]
  tauto

def c8WProps : List PropEntry :=
  [{ propertyKey := some "t_power" },
   { propertyKey := some "f_power_consumption" }]

def c8WStatus : List (String × PyVal) :=
  [("t_power", .str "1"), ("f_power_consumption", .str "3.5")]

/-- C8 witness: with f_power_consumption listed in the property list and
present in the status, both keys survive the round trip. -/
theorem c8_amended_round_trip_witness :
    (∀ j, j ∈ dkeys c8WStatus ↔ j ∈ propKeysOf c8WProps)
    ∧ (∀ j v, dget c8WStatus j = some v → (pyFloat v).isSome = true)
    ∧ "f_power_consumption" ∈ dkeys (parse_status
        (create_filtered_parser_fn baseBeanAttributes c8WProps).1 c8WStatus)
    ∧ "t_power" ∈ dkeys (parse_status
        (create_filtered_parser_fn baseBeanAttributes c8WProps).1 c8WStatus) := by
  have hco : ∀ j v, dget c8WStatus j = some v → (pyFloat v).isSome = true := by
    intro j v h
    simp only [c8WStatus, dget] at h
    split_ifs at h with h1 h2
    · cases h
      decide
    · cases h
      decide
  refine ⟨fun j => Iff.rfl, hco, ?_, ?_⟩
  · exact (c8_amended_round_trip baseBeanAttributes c8WProps c8WStatus
      (fun j => Iff.rfl) hco "f_power_consumption").mpr
      (Or.inr ⟨rfl, by decide⟩)
  · exact (c8_amended_round_trip baseBeanAttributes c8WProps c8WStatus
      (fun j => Iff.rfl) hco "t_power").mpr
      (Or.inl ⟨by decide, by decide⟩)

def c9CexProps : List PropEntry :=
  [{ propertyKey := some "t_work_mode", propertyValueList := some "0,1" }]

/-- C9 counterexample: narrowing the bean schema with a property list
that declares value list "0,1" for t_work_mode leaves the base table
changed afterwards - the shared t_work_mode attribute now carries the
narrowed range and the intersected enum map - refuting the claim that
the base schema is never mutated. -/
theorem c9_base_mutation_counterexample :
    dget (create_filtered_parser_fn baseBeanAttributes c9CexProps).2
        "t_work_mode" ≠
      dget baseBeanAttributes "t_work_mode" := by
  decide

/-- C9 amended: narrowing builds a fresh filtered dictionary, but its
entries alias the DeviceAttribute objects of the base table and those
objects are mutated in place: after the run, every retained key holds
updateAttr of its old attribute (new value_range / intersected value_map)
in base and filtered alike, while the base key set and all non-retained
entries are untouched. -/
theorem c9_amended_shared_mutation :
    ∀ (base : List (String × DeviceAttribute)) (props : List PropEntry),
      (dkeys (create_filtered_parser_fn base props).2 = dkeys base)
      ∧ (∀ k, k ∉ propKeysOf props →
          dget (create_filtered_parser_fn base props).2 k = dget base k)
      ∧ (∀ k attr, k ∈ propKeysOf props → dget base k = some attr →
          dget (create_filtered_parser_fn base props).2 k =
            some (updateAttr attr (firstPVL props k))
          ∧ dget (create_filtered_parser_fn base props).1 k =
            some (updateAttr attr (firstPVL props k))) := by
  intro base props
  have h := cfpGo_snd props (dedupKeys (propKeysOf props)) base
    (nodup_dedupKeys _)
  have hsnd : (create_filtered_parser_fn base props).2 =
      (cfpGo props base (dedupKeys (propKeysOf props))).2 := rfl
  refine ⟨hsnd ▸ h.1, ?_, ?_⟩
  · intro k hk
    rw [hsnd]
    exact h.2.1 k (fun hm => hk ((mem_dedupKeys _ k).mp hm))
  · intro k attr hk hattr
    have hk2 : k ∈ dedupKeys (propKeysOf props) := (mem_dedupKeys _ k).mpr hk
    have h3 := h.2.2 k attr hk2 hattr
    refine ⟨hsnd ▸ h3.1, ?_⟩
    have hfst : (create_filtered_parser_fn base props).1 =
        (if dget (cfpGo props base (dedupKeys (propKeysOf props))).1
            "f_power_consumption" = none then
          dset (cfpGo props base (dedupKeys (propKeysOf props))).1
            "f_power_consumption" powerConsumptionAttr
        else (cfpGo props base (dedupKeys (propKeysOf props))).1) := rfl
    rw [hfst]
    by_cases hfpc :
        dget (cfpGo props base (dedupKeys (propKeysOf props))).1
          "f_power_consumption" = none
    · rw [if_pos hfpc]
      by_cases hkf : k = "f_power_consumption"
      · subst hkf
        exact absurd h3.2 (by rw [hfpc]; intro hh; cases hh)
      · rw [dget_dset_ne _ _ _ _ hkf]
        exact h3.2
    · rw [if_neg hfpc]
      exact h3.2

def tWorkModeBaseAttr : DeviceAttribute :=
  { key := "t_work_mode", name := "Mode", attr_type := "Enum", step := 1
    value_range := some "0,1,2,3,4,5"
    value_map := some [("0", "Fan"), ("1", "Heat"), ("2", "Cool"),
      ("3", "Dry"), ("4", "Auto"), ("5", "E-star")]
    read_write := "RW" }

/-- C9 witness: after narrowing with value list "0,1", both the filtered
table and the mutated base table hold the updated t_work_mode attribute. -/
theorem c9_amended_shared_mutation_witness :
    "t_work_mode" ∈ propKeysOf c9CexProps
    ∧ dget baseBeanAttributes "t_work_mode" = some tWorkModeBaseAttr
    ∧ dget (create_filtered_parser_fn baseBeanAttributes c9CexProps).2
        "t_work_mode" =
      some (updateAttr tWorkModeBaseAttr (firstPVL c9CexProps "t_work_mode"))
    ∧ dget (create_filtered_parser_fn baseBeanAttributes c9CexProps).1
        "t_work_mode" =
      some (updateAttr tWorkModeBaseAttr (firstPVL c9CexProps "t_work_mode")) :=
  ⟨by decide, by decide,
    ((c9_amended_shared_mutation baseBeanAttributes c9CexProps).2.2
      "t_work_mode" tWorkModeBaseAttr (by decide) (by decide)).1,
    ((c9_amended_shared_mutation baseBeanAttributes c9CexProps).2.2
      "t_work_mode" tWorkModeBaseAttr (by decide) (by decide)).2⟩

/-! ### parse_device_status fallback (api.py lines 558-570) -/

/-- What a stored parser does on one raw status map: either raises (any
exception, caught by the except at line 568) or returns a parsed map. -/
inductive ParserOutcome : Type
  | raises
  | returns (out : List (String × PyVal))

/-- The projection of models.DeviceInfo used by parse_device_status:
the device id and the raw status map. -/
structure DeviceRec : Type where
  device_id : String
  status : List (String × PyVal)

/-- A well-behaved bean parser: parse_status is total in the embedding,
so it always returns. -/
def runBeanParserOn (attrs : List (String × DeviceAttribute))
    (status : List (String × PyVal)) : ParserOutcome :=
  .returns (parse_status attrs status)

/-- ConnectLifeApiClient.parse_device_status, api.py lines 558-570:
reads self.parsers for the device id; with no parser the raw status is
returned, a raising parser is caught and the raw status returned, and
otherwise the parsed status is returned. -/
def parse_device_status
    (parsers : List (String × (List (String × PyVal) → ParserOutcome)))
    (device : DeviceRec) : List (String × PyVal) :=
  match dget parsers device.device_id with
  | none => device.status
  | some p =>
    match p device.status with
    | .raises => device.status
    | .returns out => out

/-- C10: parse_device_status never propagates an error: with no parser
registered for the device id, or with a parser that raises while
parsing, it returns the raw status map unchanged; a returning parser
gives the parsed status. -/
theorem c10_parse_device_status_fallback :
    (∀ (parsers : List (String × (List (String × PyVal) → ParserOutcome)))
        (device : DeviceRec),
        dget parsers device.device_id = none →
        parse_device_status parsers device = device.status)
    ∧ (∀ (parsers : List (String × (List (String × PyVal) → ParserOutcome)))
        (device : DeviceRec) (p : List (String × PyVal) → ParserOutcome),
        dget parsers device.device_id = some p →
        p device.status = .raises →
        parse_device_status parsers device = device.status)
    ∧ (∀ (parsers : List (String × (List (String × PyVal) → ParserOutcome)))
        (device : DeviceRec) (attrs : List (String × DeviceAttribute)),
        dget parsers device.device_id = some (runBeanParserOn attrs) →
        parse_device_status parsers device =
          parse_status attrs device.status) := by
  refine ⟨?_, ?_, ?_⟩
  · intro parsers device h
    simp [parse_device_status, h]
  · intro parsers device p h hp
    simp [parse_device_status, h, hp]
  · intro parsers device attrs h
    simp [parse_device_status, h, runBeanParserOn]

def c10Parsers : List (String × (List (String × PyVal) → ParserOutcome)) :=
  [("dev-raising", fun _ => .raises),
   ("dev-bean", runBeanParserOn baseBeanAttributes)]

def c10RaisingDev : DeviceRec :=
  { device_id := "dev-raising", status := [("t_power", .str "1")] }

def c10BeanDev : DeviceRec :=
  { device_id := "dev-bean", status := [("t_power", .str "1")] }

def c10UnknownDev : DeviceRec :=
  { device_id := "dev-unknown", status := [("t_power", .str "1")] }

/-- C10 witness: an unregistered device and a raising parser both fall
back to the raw status; the bean parser parses. -/
theorem c10_parse_device_status_fallback_witness :
    dget c10Parsers c10UnknownDev.device_id = none
    ∧ parse_device_status c10Parsers c10UnknownDev = c10UnknownDev.status
    ∧ parse_device_status c10Parsers c10RaisingDev = c10RaisingDev.status
    ∧ parse_device_status c10Parsers c10BeanDev =
        parse_status baseBeanAttributes c10BeanDev.status :=
  ⟨rfl,
    c10_parse_device_status_fallback.1 c10Parsers c10UnknownDev rfl,
    c10_parse_device_status_fallback.2.1 c10Parsers c10RaisingDev
      (fun _ => .raises) rfl rfl,
    c10_parse_device_status_fallback.2.2 c10Parsers c10BeanDev
      baseBeanAttributes rfl⟩

end ConnectLife
